import Mathlib

/-
Verification of the request/cache orchestration engine of
`src/http-data-source.ts` (class `HTTPDataSource`, apollo-datasource-http).

The embedding translates the control flow of `request` (source lines
401-461) and `performRequest` (source lines 297-399) together with the
predicates they use (lines 79-173).  The external collaborators (undici
pool, shared KeyValueCache) are inputs of a call: `CallEnv` fixes the
outcome of the transport call and of the two possible shared-cache `get`s,
and the side effects the call performs on the collaborators are recorded
in an `Effects` trace.  `JSON.stringify`/`JSON.parse` of a response
envelope is modelled as the identity round trip, so the shared cache
stores envelope values.  Request fields the orchestration logic never
branches on (headers, body, context, signal payload) are omitted; the
query string is taken as already folded into `path` (lines 402-404 fold it
in before the cache key is computed), so `onCacheKeyCalculation` is
faithful.
-/

namespace HttpDataSource

/-- HTTP verbs exposed by the data source (source lines 216-295). -/
inductive HttpMethod
  | GET
  | POST
  | PUT
  | DELETE
  | PATCH
deriving DecidableEq, Repr

/-- The `requestCache` options of a call (source lines 29-36): TTL of the
primary entry and the additional stale-if-error window, in seconds. -/
structure RequestCacheOptions where
  maxTtl : Nat
  maxTtlIfError : Nat
deriving DecidableEq, Repr

/-- Request descriptor, restricted to the fields the orchestration logic
branches on (source lines 44-56). -/
structure Request where
  method : HttpMethod
  origin : String
  path : String
  memoize : Bool
  requestCache : Option RequestCacheOptions
deriving DecidableEq, Repr

/-- Response envelope (source lines 58-64). -/
structure Response where
  statusCode : Nat
  body : String
  memoized : Bool
  isFromCache : Bool
  maxTtl : Option Nat
deriving DecidableEq, Repr

/-- Failures of the transport call itself (undici pool.request rejection):
a network-level failure or a cancellation via the request signal. -/
inductive TransportFailure
  | network
  | abort
deriving DecidableEq, Repr

/-- JavaScript error values that can travel through `performRequest`:
the `RequestError` thrown by `onResponse` (source lines 198-203), a
transport rejection, a rejection of a shared-cache `get`, and the
`toApolloError` wrapper applied at the rethrow site (line 397). -/
inductive JsError
  | requestError (statusCode : Nat)
  | transportError (f : TransportFailure)
  | cacheBackendError
  | apolloError (cause : JsError)
deriving DecidableEq, Repr

/-- Models `toApolloError` from apollo-server-errors (used at source line
397): the error is rebranded as an ApolloError; which underlying failure
it represents is preserved. -/
def toApolloError (e : JsError) : JsError :=
  JsError.apolloError e

/-- Outcome of one shared-cache `get` for a fixed key: a stored envelope,
a miss (undefined), or a rejection of the returned promise. -/
inductive CacheGetOutcome
  | hit (stored : Response)
  | miss
  | backendFailure
deriving DecidableEq, Repr

/-- Outcome of the transport call `this.pool.request` (source line 321),
including body decoding and JSON parsing (lines 325-349), collapsed into
the status code and decoded body. -/
inductive TransportOutcome
  | ok (statusCode : Nat) (body : String)
  | failure (f : TransportFailure)
deriving DecidableEq, Repr

/-- Environment of a single call: the state of the collaborators as this
call observes them.  `memoEntry` is `memoizedResults.get(cacheKey)` at
entry (lines 414-415), `primaryGet` the outcome of `cache.get(cacheKey)`
(line 439), `staleGet` the outcome of `cache.get('staleIfError:'+key)`
(line 388), and the two `SetFails` flags say whether the corresponding
fire-and-forget `cache.set` (lines 371-380) rejects. -/
structure CallEnv where
  memoEntry : Option Response
  primaryGet : CacheGetOutcome
  staleGet : CacheGetOutcome
  transport : TransportOutcome
  primarySetFails : Bool
  staleSetFails : Bool
deriving DecidableEq, Repr

/-- One `cache.set(key, value, ttl)` call issued to the shared cache. -/
structure CacheSetCall where
  key : String
  value : Response
  ttl : Nat
deriving DecidableEq, Repr

/-- Side effects one call performs on the collaborators: number of
transport invocations, keys passed to shared-cache `get`, `set` calls
issued, writes to `memoizedResults`, and `logger.error` invocations. -/
structure Effects where
  transportCalls : Nat
  cacheGets : List String
  cacheSets : List CacheSetCall
  memoWrites : List (String × Response)
  loggedErrors : Nat
deriving DecidableEq, Repr

/-- Effects of a call that touched nothing. -/
def emptyEffects : Effects :=
  ⟨0, [], [], [], 0⟩

/-- Source line 82: `new Set([200, 203])`, membership test. -/
def statusCodeCacheableByDefault (statusCode : Nat) : Bool :=
  statusCode == 200 || statusCode == 203

/-- Source lines 137-139. -/
def isResponseOk (statusCode : Nat) : Bool :=
  decide (200 ≤ statusCode ∧ statusCode ≤ 399)

/-- Source lines 148-152. -/
def isRequestCacheable (request : Request) : Bool :=
  request.method == HttpMethod.GET

/-- Source lines 160-162: `Boolean(request.memoize) && request.method === 'GET'`. -/
def isRequestMemoizable (request : Request) : Bool :=
  request.memoize && request.method == HttpMethod.GET

/-- Source lines 141-146. -/
def isResponseCacheable (request : Request) (response : Response) : Bool :=
  statusCodeCacheableByDefault response.statusCode && isRequestCacheable request

/-- Source lines 171-173. -/
def onCacheKeyCalculation (request : Request) : String :=
  request.origin ++ request.path

/-- The derived stale key `` `staleIfError:${cacheKey}` `` (lines 377, 388). -/
def staleKeyFor (cacheKey : String) : String :=
  "staleIfError:" ++ cacheKey

/-- Catch block of `performRequest` (source lines 383-398).  `onError` is
absent in the base class.  When `requestCache` is set the stale entry is
looked up with `await this.cache.get(...)`; that await is inside the
catch block, so a rejection of the cache `get` itself propagates out of
`performRequest` uncaught and unlogged.  On a stale hit the parsed entry
is returned with `isFromCache` forced to true; on a miss the original
error is rethrown through `toApolloError`. -/
def staleFallback (request : Request) (cacheKey : String) (env : CallEnv)
    (liveError : JsError) (eff : Effects) : Except JsError Response × Effects :=
  match request.requestCache with
  | some _ =>
    let eff2 : Effects := {eff with cacheGets := eff.cacheGets ++ [staleKeyFor cacheKey]}
    match env.staleGet with
    | CacheGetOutcome.backendFailure => (Except.error JsError.cacheBackendError, eff2)
    | CacheGetOutcome.hit stored =>
        (Except.ok {stored with isFromCache := true}, eff2)
    | CacheGetOutcome.miss => (Except.error (toApolloError liveError), eff2)
  | none => (Except.error (toApolloError liveError), eff)

/-- Body of `performRequest` (source lines 297-399).  The transport is
invoked once; on resolution a fresh envelope with both flags false is
built (lines 350-357) and `onResponse` (lines 190-204) throws a
`RequestError` for status codes outside [200,399].  On success the
envelope is stored in `memoizedResults` when the request is memoizable
(lines 361-363) and, when `requestCache` is set and the response is
cacheable, `maxTtl` is set on the envelope and the primary and stale
entries are written fire-and-forget with `.catch` handlers that only log
(lines 366-381); the stored memo entry aliases the returned envelope, so
it is recorded here with the final (post-`maxTtl`) value.  Any error in
the try block flows to `staleFallback`. -/
def performRequestResult (request : Request) (cacheKey : String) (env : CallEnv) :
    Except JsError Response × Effects :=
  match env.transport with
  | TransportOutcome.failure f =>
      staleFallback request cacheKey env (JsError.transportError f)
        {emptyEffects with transportCalls := 1}
  | TransportOutcome.ok statusCode body =>
      if isResponseOk statusCode then
        let response0 : Response :=
          { statusCode := statusCode, body := body,
            memoized := false, isFromCache := false, maxTtl := none }
        match request.requestCache with
        | some c =>
            if isResponseCacheable request response0 then
              let response : Response := {response0 with maxTtl := some c.maxTtl}
              (Except.ok response,
               { transportCalls := 1, cacheGets := [],
                 cacheSets := [⟨cacheKey, response, c.maxTtl⟩,
                               ⟨staleKeyFor cacheKey, response, c.maxTtl + c.maxTtlIfError⟩],
                 memoWrites := if isRequestMemoizable request then [(cacheKey, response)] else [],
                 loggedErrors := (if env.primarySetFails then 1 else 0) +
                                 (if env.staleSetFails then 1 else 0) })
            else
              (Except.ok response0,
               { emptyEffects with
                 transportCalls := 1,
                 memoWrites := if isRequestMemoizable request then [(cacheKey, response0)] else [] })
        | none =>
            (Except.ok response0,
             { emptyEffects with
               transportCalls := 1,
               memoWrites := if isRequestMemoizable request then [(cacheKey, response0)] else [] })
      else
        staleFallback request cacheKey env (JsError.requestError statusCode)
          {emptyEffects with transportCalls := 1}

/-- Source lines 433-459 of `request`: the shared-cache phase after the
memoization check.  For a cacheable request with `requestCache` set the
primary entry is read; a hit is returned with `memoized := false`,
`isFromCache := true` (lines 440-445); a rejection of that `get` is
caught and logged (lines 449-451) and the call falls through to
`performRequest` (line 454).  On a plain miss `performRequest` is invoked
inside the try block without `await` (line 446), so its rejections pass
through unchanged. -/
def requestAfterMemo (request : Request) (cacheKey : String) (env : CallEnv) :
    Except JsError Response × Effects :=
  if isRequestCacheable request then
    match request.requestCache with
    | some _ =>
      match env.primaryGet with
      | CacheGetOutcome.hit stored =>
          (Except.ok {stored with memoized := false, isFromCache := true},
           {emptyEffects with cacheGets := [cacheKey]})
      | CacheGetOutcome.miss =>
          let r := performRequestResult request cacheKey env
          (r.fst, {r.snd with cacheGets := cacheKey :: r.snd.cacheGets})
      | CacheGetOutcome.backendFailure =>
          let r := performRequestResult request cacheKey env
          (r.fst, {r.snd with
                   cacheGets := cacheKey :: r.snd.cacheGets,
                   loggedErrors := r.snd.loggedErrors + 1})
    | none => performRequestResult request cacheKey env
  else performRequestResult request cacheKey env

/-- Entry point `request` (source lines 401-461).  For a memoizable
request whose key is present in `memoizedResults`, the stored envelope is
returned after mutating it with `memoized := true`, `isFromCache := false`
(lines 414-419; the aliasing consequences of this in-place mutation are
modelled separately by the heap-based instance model below). -/
def request (req : Request) (env : CallEnv) : Except JsError Response × Effects :=
  let cacheKey := onCacheKeyCalculation req
  if isRequestMemoizable req then
    match env.memoEntry with
    | some stored =>
        (Except.ok {stored with memoized := true, isFromCache := false}, emptyEffects)
    | none => requestAfterMemo req cacheKey env
  else requestAfterMemo req cacheKey env

/-- Request built by the public `get` verb (source lines 216-231):
`memoize` defaults to true and may be overridden by the caller's options;
the method is forced to GET. -/
def getRequest (baseURL path : String) (memoize : Bool)
    (requestCache : Option RequestCacheOptions) : Request :=
  ⟨HttpMethod.GET, baseURL, path, memoize, requestCache⟩

/-- Request built by the public `post` verb (source lines 233-247):
no `memoize` default, so `Boolean(request.memoize)` is false. -/
def postRequest (baseURL path : String)
    (requestCache : Option RequestCacheOptions) : Request :=
  ⟨HttpMethod.POST, baseURL, path, false, requestCache⟩

/-- Request built by the public `put` verb (source lines 265-279). -/
def putRequest (baseURL path : String)
    (requestCache : Option RequestCacheOptions) : Request :=
  ⟨HttpMethod.PUT, baseURL, path, false, requestCache⟩

/-- Request built by the public `delete` verb (source lines 249-263). -/
def deleteRequest (baseURL path : String)
    (requestCache : Option RequestCacheOptions) : Request :=
  ⟨HttpMethod.DELETE, baseURL, path, false, requestCache⟩

/-- Request built by the public `patch` verb (source lines 281-295). -/
def patchRequest (baseURL path : String)
    (requestCache : Option RequestCacheOptions) : Request :=
  ⟨HttpMethod.PATCH, baseURL, path, false, requestCache⟩

/-- Live failure of a call, if any: the error raised inside the try block
of `performRequest` for the given transport outcome — the transport
rejection itself, or the `RequestError` thrown by `onResponse` for a
status outside [200,399]. -/
def liveFailure (env : CallEnv) : Option JsError :=
  match env.transport with
  | TransportOutcome.failure f => some (JsError.transportError f)
  | TransportOutcome.ok s _ =>
      if isResponseOk s then none else some (JsError.requestError s)

/-
Heap-based model of one data-source instance, used for the properties
about concurrent calls and about the in-place mutation of memoized
envelopes.  JavaScript objects are heap cells; `memoizedResults` maps a
cache key to the heap reference of the stored `Response` object, exactly
as the source stores object references.  The model covers memoizable GET
calls without `requestCache` (then lines 433-452 are skipped and line 454
invokes `performRequest`, whose successful path is lines 350-363).  A call
consists of an issue phase — the synchronous run of `request` from entry
through the `memoizedResults` check (lines 401-420), which precedes every
`await` of the call — and, for calls that miss the map, a resolve phase
running when the transport response arrives (lines 350-363).  Between the
issue phase of one call and its resolve phase, other calls may run their
own phases: this is exactly the event-loop interleaving of the source.
-/

/-- State of one data-source instance: the heap of envelope objects, the
`memoizedResults` map from cache key to heap reference, and how many times
the transport has been invoked. -/
structure InstState where
  heap : List Response
  memo : List (String × Nat)
  transportCalls : Nat
deriving DecidableEq, Repr

/-- Lookup in the `memoizedResults` map (QuickLRU `has`/`get`; with fewer
entries than the capacity of 100 no eviction occurs). -/
def memoLookup : List (String × Nat) → String → Option Nat
  | [], _ => none
  | (k, ref) :: rest, key => if k = key then some ref else memoLookup rest key

/-- Write to the `memoizedResults` map (QuickLRU `set`), overwriting an
existing entry for the key. -/
def memoSet : List (String × Nat) → String → Nat → List (String × Nat)
  | [], key, ref => [(key, ref)]
  | (k, r) :: rest, key, ref =>
      if k = key then (key, ref) :: rest else (k, r) :: memoSet rest key ref

/-- Read a heap cell (total, with a dummy envelope out of range; all
references used in the runs below are in range). -/
def heapGet (heap : List Response) (ref : Nat) : Response :=
  heap.getD ref ⟨0, "", false, false, none⟩

/-- Overwrite a heap cell: the in-place mutation of a JavaScript object. -/
def heapSet (heap : List Response) (ref : Nat) (r : Response) : List Response :=
  heap.set ref r

/-- Outcome of the issue phase of one GET call: an immediate memoized hit
(returning a reference to the stored object, mutated in place), or a live
call that will invoke the transport. -/
inductive IssueOutcome
  | memoHit (ref : Nat) (snapshot : Response)
  | live
deriving DecidableEq, Repr

/-- Issue phase (source lines 401-420): the memoization check.  On a hit
the stored object itself is mutated with `memoized := true`,
`isFromCache := false` and returned (lines 415-418) — no copy is made. -/
def issuePhase (s : InstState) (cacheKey : String) : InstState × IssueOutcome :=
  match memoLookup s.memo cacheKey with
  | some ref =>
      let mutated := {heapGet s.heap ref with memoized := true, isFromCache := false}
      ({s with heap := heapSet s.heap ref mutated}, IssueOutcome.memoHit ref mutated)
  | none => (s, IssueOutcome.live)

/-- Resolve phase of a live call (source lines 321, 350-363): the
transport responds with `statusCode`/`body`; a fresh envelope object is
allocated with both flags false; `onResponse` throws for a status outside
[200,399]; on success the new object's reference is stored in
`memoizedResults`.  A result is a heap reference together with the value
of the referenced object at resolution time. -/
def resolvePhase (s : InstState) (cacheKey : String) (statusCode : Nat) (body : String) :
    InstState × Except JsError (Nat × Response) :=
  let response : Response := ⟨statusCode, body, false, false, none⟩
  if isResponseOk statusCode then
    let ref := s.heap.length
    ({heap := s.heap ++ [response], memo := memoSet s.memo cacheKey ref,
      transportCalls := s.transportCalls + 1},
     Except.ok (ref, response))
  else
    ({s with transportCalls := s.transportCalls + 1},
     Except.error (toApolloError (JsError.requestError statusCode)))

/-- Completion of a call whose issue phase produced `o`: a memoized hit
already holds its result; a live call resolves with the transport outcome
`t` (status code and body). -/
def finishCall (s : InstState) (cacheKey : String) (t : Nat × String) :
    IssueOutcome → InstState × Except JsError (Nat × Response)
  | IssueOutcome.memoHit ref snapshot => (s, Except.ok (ref, snapshot))
  | IssueOutcome.live => resolvePhase s cacheKey t.fst t.snd

/-- A fresh data-source instance: empty heap, empty memoization map. -/
def initialInstState : InstState :=
  ⟨[], [], 0⟩

/-- Observable outcome of running two GET calls on one instance. -/
structure TwoCallRun where
  finalState : InstState
  result1 : Except JsError (Nat × Response)
  result2 : Except JsError (Nat × Response)
deriving Repr

/-- Two GET calls for the same cache key issued concurrently: both issue
phases run before either transport response arrives (the issue phase is
synchronous from call entry, so this is the behaviour of two calls issued
before the first resolves); then the two transport responses `t1`, `t2`
arrive in order. -/
def runConcurrentTwoGets (cacheKey : String) (t1 t2 : Nat × String) : TwoCallRun :=
  let p1 := issuePhase initialInstState cacheKey
  let p2 := issuePhase p1.fst cacheKey
  let f1 := finishCall p2.fst cacheKey t1 p1.snd
  let f2 := finishCall f1.fst cacheKey t2 p2.snd
  ⟨f2.fst, f1.snd, f2.snd⟩

/-- Two GET calls for the same cache key issued sequentially: the second
call is issued only after the first has fully resolved. -/
def runSequentialTwoGets (cacheKey : String) (t1 t2 : Nat × String) : TwoCallRun :=
  let p1 := issuePhase initialInstState cacheKey
  let f1 := finishCall p1.fst cacheKey t1 p1.snd
  let p2 := issuePhase f1.fst cacheKey
  let f2 := finishCall p2.fst cacheKey t2 p2.snd
  ⟨f2.fst, f1.snd, f2.snd⟩

/-
Concrete inputs used by the witness and counterexample theorems.
-/

/-- A plain memoizable GET request with shared caching enabled. -/
def movieReq : Request :=
  ⟨HttpMethod.GET, "https://api", "/movies/1", true, some ⟨10, 20⟩⟩

/-- An envelope as the shared cache would hold it (written by a previous
successful GET: both flags false, `maxTtl` recorded). -/
def storedMovie : Response :=
  ⟨200, "cached-body", false, false, some 10⟩

/-- An envelope as `memoizedResults` would hold it. -/
def memoStored : Response :=
  ⟨200, "memo-body", false, false, none⟩

/-- Environment with a primary shared-cache hit. -/
def hitEnv : CallEnv :=
  ⟨none, CacheGetOutcome.hit storedMovie, CacheGetOutcome.miss,
   TransportOutcome.ok 200 "live-body", false, false⟩

/-- Environment where the transport fails and the stale entry is present. -/
def staleHitEnv : CallEnv :=
  ⟨none, CacheGetOutcome.miss, CacheGetOutcome.hit storedMovie,
   TransportOutcome.failure TransportFailure.network, false, false⟩

/-- Environment where the transport fails and the stale lookup itself
fails (the cache backend rejects the `get`). -/
def staleFailEnv : CallEnv :=
  ⟨none, CacheGetOutcome.miss, CacheGetOutcome.backendFailure,
   TransportOutcome.failure TransportFailure.network, false, false⟩

/-- Environment where the call is aborted and a stale entry is present. -/
def abortStaleEnv : CallEnv :=
  ⟨none, CacheGetOutcome.miss, CacheGetOutcome.hit storedMovie,
   TransportOutcome.failure TransportFailure.abort, false, false⟩

/-- Environment where both the memoization map and the shared cache hold
an entry for the key. -/
def bothHitEnv : CallEnv :=
  ⟨some memoStored, CacheGetOutcome.hit storedMovie, CacheGetOutcome.miss,
   TransportOutcome.ok 200 "live-body", false, false⟩

/-- Environment of a successful live GET with a cacheable status. -/
def liveOkEnv : CallEnv :=
  ⟨none, CacheGetOutcome.miss, CacheGetOutcome.miss,
   TransportOutcome.ok 200 "live-body", false, false⟩

/-- Environment of a live GET answered with status 500. -/
def live500Env : CallEnv :=
  ⟨none, CacheGetOutcome.miss, CacheGetOutcome.miss,
   TransportOutcome.ok 500 "server-error", false, false⟩

/-- Environment where the primary shared-cache `get` rejects and the
transport then succeeds. -/
def primaryFailEnv : CallEnv :=
  ⟨none, CacheGetOutcome.backendFailure, CacheGetOutcome.miss,
   TransportOutcome.ok 200 "live-body", false, false⟩

/-- A POST request with `requestCache` options supplied. -/
def postReq : Request :=
  postRequest "https://api" "/movies/1" (some ⟨10, 20⟩)

/-- Decidable equality on `Except`, so that concrete call results can be
compared by `decide`. -/
instance {α β : Type} [DecidableEq α] [DecidableEq β] : DecidableEq (Except α β) := fun x y =>
  match x, y with
  | Except.ok a, Except.ok b =>
      if h : a = b then isTrue (by rw [h]) else isFalse (by simp [h])
  | Except.error a, Except.error b =>
      if h : a = b then isTrue (by rw [h]) else isFalse (by simp [h])
  | Except.ok _, Except.error _ => isFalse (by simp)
  | Except.error _, Except.ok _ => isFalse (by simp)

/-
Helper lemmas about the embedded control flow, shared by the claim
theorems below.
-/

/-- The stale key is never equal to the key it is derived from. -/
theorem staleKeyFor_ne (k : String) : staleKeyFor k ≠ k := by
  intro h
  have hlen := congrArg String.length h
  rw [staleKeyFor, String.length_append] at hlen
  have h13 : ("staleIfError:" : String).length = 13 := rfl
  rw [h13] at hlen
  omega

/-- When the memoization check does not hit (the request is not memoizable
or the map has no entry), `request` is the shared-cache phase. -/
theorem request_memoMiss (req : Request) (env : CallEnv)
    (h : isRequestMemoizable req = true → env.memoEntry = none) :
    request req env = requestAfterMemo req (onCacheKeyCalculation req) env := by
  unfold request
  cases hm : isRequestMemoizable req with
  | false => simp [hm]
  | true => rw [h hm]; simp [hm]

/-- When the live failure is `e`, `performRequest` runs its catch block
with `e`. -/
theorem perform_fail (req : Request) (cacheKey : String) (env : CallEnv) (e : JsError)
    (h : liveFailure env = some e) :
    performRequestResult req cacheKey env =
      staleFallback req cacheKey env e {emptyEffects with transportCalls := 1} := by
  unfold performRequestResult
  unfold liveFailure at h
  cases ht : env.transport with
  | failure f =>
      rw [ht] at h
      simp only [Option.some.injEq] at h
      rw [← h]
  | ok s b =>
      rw [ht] at h
      by_cases hok : isResponseOk s = true
      · simp [hok] at h
      · simp only [Bool.not_eq_true] at hok
        simp only [hok, Bool.false_eq_true, if_false, Option.some.injEq] at h
        simp [hok, ← h]

/-- A call that reaches the live path behaves as `performRequest`, except
that the effect trace may additionally record the primary shared-cache
`get` (and its logged failure). -/
theorem request_live_components (req : Request) (env : CallEnv)
    (hmemo : isRequestMemoizable req = true → env.memoEntry = none)
    (hprim : isRequestCacheable req = true → req.requestCache.isSome = true →
             ∀ r, env.primaryGet ≠ CacheGetOutcome.hit r) :
    (request req env).fst =
      (performRequestResult req (onCacheKeyCalculation req) env).fst ∧
    (request req env).snd.cacheSets =
      (performRequestResult req (onCacheKeyCalculation req) env).snd.cacheSets ∧
    (request req env).snd.memoWrites =
      (performRequestResult req (onCacheKeyCalculation req) env).snd.memoWrites ∧
    (request req env).snd.transportCalls =
      (performRequestResult req (onCacheKeyCalculation req) env).snd.transportCalls ∧
    ((request req env).snd.cacheGets =
       (performRequestResult req (onCacheKeyCalculation req) env).snd.cacheGets ∨
     (req.requestCache.isSome = true ∧
      (request req env).snd.cacheGets =
        onCacheKeyCalculation req ::
          (performRequestResult req (onCacheKeyCalculation req) env).snd.cacheGets)) := by
  rw [request_memoMiss req env hmemo]
  unfold requestAfterMemo
  cases hc : isRequestCacheable req with
  | false => simp
  | true =>
      cases hrc : req.requestCache with
      | none => simp
      | some c =>
          cases hp : env.primaryGet with
          | hit r =>
              exact absurd hp (hprim hc (by rw [hrc]; rfl) r)
          | miss => simp [hrc]
          | backendFailure => simp [hrc]

/-- Effect trace of the catch block: no cache writes, no memoization
writes, the single transport invocation, and the stale-key `get` exactly
when `requestCache` is set. -/
theorem staleFallback_effects (req : Request) (k : String) (env : CallEnv) (e : JsError) :
    (staleFallback req k env e {emptyEffects with transportCalls := 1}).snd.cacheSets = [] ∧
    (staleFallback req k env e {emptyEffects with transportCalls := 1}).snd.memoWrites = [] ∧
    (staleFallback req k env e {emptyEffects with transportCalls := 1}).snd.transportCalls = 1 ∧
    ((req.requestCache = none ∧
        (staleFallback req k env e {emptyEffects with transportCalls := 1}).snd.cacheGets = []) ∨
     (req.requestCache.isSome = true ∧
        (staleFallback req k env e {emptyEffects with transportCalls := 1}).snd.cacheGets =
          [staleKeyFor k])) := by
  unfold staleFallback
  cases req.requestCache <;> cases env.staleGet <;> simp [emptyEffects]

/-- Result of the catch block, by `requestCache` and stale-lookup
outcome. -/
theorem staleFallback_result (req : Request) (k : String) (env : CallEnv) (e : JsError)
    (eff : Effects) :
    (req.requestCache = none →
       (staleFallback req k env e eff).fst = Except.error (toApolloError e)) ∧
    (req.requestCache.isSome = true →
       (env.staleGet = CacheGetOutcome.miss →
          (staleFallback req k env e eff).fst = Except.error (toApolloError e)) ∧
       (∀ r, env.staleGet = CacheGetOutcome.hit r →
          (staleFallback req k env e eff).fst = Except.ok {r with isFromCache := true}) ∧
       (env.staleGet = CacheGetOutcome.backendFailure →
          (staleFallback req k env e eff).fst = Except.error JsError.cacheBackendError)) := by
  refine ⟨fun hrc => by simp [staleFallback, hrc], fun hrc => ?_⟩
  obtain ⟨c, hc⟩ := Option.isSome_iff_exists.mp hrc
  refine ⟨fun hsg => by simp [staleFallback, hc, hsg],
          fun r hsg => by simp [staleFallback, hc, hsg],
          fun hsg => by simp [staleFallback, hc, hsg]⟩

/-- The transport is invoked exactly once on every live path. -/
theorem perform_transportCalls (req : Request) (k : String) (env : CallEnv) :
    (performRequestResult req k env).snd.transportCalls = 1 := by
  unfold performRequestResult staleFallback
  cases env.transport with
  | failure f => cases req.requestCache <;> cases env.staleGet <;> simp [emptyEffects]
  | ok s b =>
      by_cases hok : isResponseOk s = true
      · cases hrc : req.requestCache with
        | none => simp [hok, emptyEffects]
        | some c =>
            by_cases hcc : isResponseCacheable req ⟨s, b, false, false, none⟩ = true <;>
              simp [hok, hcc, emptyEffects]
      · simp only [Bool.not_eq_true] at hok
        cases req.requestCache <;> cases env.staleGet <;>
          simp [hok, emptyEffects]

/-- On a live success with a cacheable status for a GET with
`requestCache` set, `performRequest` returns the envelope with `maxTtl`
recorded and writes both shared-cache entries. -/
theorem perform_ok_cacheable (req : Request) (k : String) (env : CallEnv)
    (s : Nat) (b : String) (c : RequestCacheOptions)
    (ht : env.transport = TransportOutcome.ok s b)
    (hrc : req.requestCache = some c)
    (hcc : statusCodeCacheableByDefault s = true)
    (hmeth : req.method = HttpMethod.GET) :
    performRequestResult req k env =
      (Except.ok ⟨s, b, false, false, some c.maxTtl⟩,
       { transportCalls := 1, cacheGets := [],
         cacheSets := [⟨k, ⟨s, b, false, false, some c.maxTtl⟩, c.maxTtl⟩,
                       ⟨staleKeyFor k, ⟨s, b, false, false, some c.maxTtl⟩,
                        c.maxTtl + c.maxTtlIfError⟩],
         memoWrites := if isRequestMemoizable req
                       then [(k, ⟨s, b, false, false, some c.maxTtl⟩)] else [],
         loggedErrors := (if env.primarySetFails then 1 else 0) +
                         (if env.staleSetFails then 1 else 0) }) := by
  have hok : isResponseOk s = true := by
    have hcc2 := hcc
    unfold statusCodeCacheableByDefault at hcc2
    simp only [Bool.or_eq_true, beq_iff_eq] at hcc2
    rcases hcc2 with h | h <;> subst h <;> decide
  unfold performRequestResult
  rw [ht, hrc]
  simp [hok, isResponseCacheable, isRequestCacheable, hmeth, hcc]

/-- The `cache.set` calls of a live call are either absent or exactly the
primary and stale writes of a cacheable GET success. -/
theorem perform_cacheSets (req : Request) (k : String) (env : CallEnv) :
    (performRequestResult req k env).snd.cacheSets = [] ∨
    (∃ s b c, env.transport = TransportOutcome.ok s b ∧
       req.requestCache = some c ∧ statusCodeCacheableByDefault s = true ∧
       req.method = HttpMethod.GET ∧
       (performRequestResult req k env).snd.cacheSets =
         [⟨k, ⟨s, b, false, false, some c.maxTtl⟩, c.maxTtl⟩,
          ⟨staleKeyFor k, ⟨s, b, false, false, some c.maxTtl⟩,
           c.maxTtl + c.maxTtlIfError⟩]) := by
  cases ht : env.transport with
  | failure f =>
      left
      rw [perform_fail req k env (JsError.transportError f) (by unfold liveFailure; rw [ht])]
      exact (staleFallback_effects req k env (JsError.transportError f)).1
  | ok s b =>
      by_cases hok : isResponseOk s = true
      · cases hrc : req.requestCache with
        | none => left; unfold performRequestResult; rw [ht, hrc]; simp [hok, emptyEffects]
        | some c =>
            by_cases hcc : statusCodeCacheableByDefault s = true
            · by_cases hmeth : req.method = HttpMethod.GET
              · right
                exact ⟨s, b, c, rfl, rfl, hcc, hmeth,
                  by rw [perform_ok_cacheable req k env s b c ht hrc hcc hmeth]⟩
              · left
                unfold performRequestResult
                rw [ht, hrc]
                have hcb : isResponseCacheable req ⟨s, b, false, false, none⟩ = false := by
                  simp [isResponseCacheable, isRequestCacheable, hmeth]
                simp [hok, hcb, emptyEffects]
            · left
              unfold performRequestResult
              rw [ht, hrc]
              have hcb : isResponseCacheable req ⟨s, b, false, false, none⟩ = false := by
                simp [isResponseCacheable]
                intro hc2
                exact absurd hc2 hcc
              simp [hok, hcb, emptyEffects]
      · left
        have hfail : liveFailure env = some (JsError.requestError s) := by
          unfold liveFailure; rw [ht]; simp [hok]
        rw [perform_fail req k env _ hfail]
        exact (staleFallback_effects req k env (JsError.requestError s)).1

/-- The shared-cache phase issues the same `cache.set` calls as
`performRequest`, or none at all (on a primary hit). -/
theorem requestAfterMemo_cacheSets_eq (req : Request) (k : String) (env : CallEnv) :
    (requestAfterMemo req k env).snd.cacheSets = [] ∨
    (requestAfterMemo req k env).snd.cacheSets =
      (performRequestResult req k env).snd.cacheSets := by
  unfold requestAfterMemo
  cases hc : isRequestCacheable req with
  | false => right; simp
  | true =>
      cases hrc : req.requestCache with
      | none => right; simp
      | some c =>
          cases hp : env.primaryGet with
          | hit r => left; simp [emptyEffects]
          | miss => right; simp
          | backendFailure => right; simp

/-- A call issues the same `cache.set` calls as its live path, or none. -/
theorem request_cacheSets_eq (req : Request) (env : CallEnv) :
    (request req env).snd.cacheSets = [] ∨
    (request req env).snd.cacheSets =
      (performRequestResult req (onCacheKeyCalculation req) env).snd.cacheSets := by
  unfold request
  cases hm : isRequestMemoizable req with
  | false =>
      simp only [Bool.false_eq_true, if_false]
      exact requestAfterMemo_cacheSets_eq req (onCacheKeyCalculation req) env
  | true =>
      cases hme : env.memoEntry with
      | some r => left; simp [emptyEffects]
      | none =>
          simp only [if_true]
          exact requestAfterMemo_cacheSets_eq req (onCacheKeyCalculation req) env

/-- Any `cache.set` a call issues happens under the cacheability
conditions, and the written envelope always has both flags false. -/
theorem request_cacheSets_conditions (req : Request) (env : CallEnv) :
    ∀ e, e ∈ (request req env).snd.cacheSets →
      req.requestCache.isSome = true ∧ req.method = HttpMethod.GET ∧
      (∃ s b, env.transport = TransportOutcome.ok s b ∧
        statusCodeCacheableByDefault s = true) ∧
      e.value.memoized = false ∧ e.value.isFromCache = false := by
  intro e he
  rcases request_cacheSets_eq req env with hs | hs
  · rw [hs] at he; simp at he
  · rw [hs] at he
    rcases perform_cacheSets req (onCacheKeyCalculation req) env with
      hp | ⟨s, b, c, ht, hrc, hcc, hmeth, hp⟩
    · rw [hp] at he; simp at he
    · rw [hp] at he
      simp only [List.mem_cons, List.mem_singleton, List.not_mem_nil, or_false] at he
      rcases he with rfl | rfl
      · exact ⟨by rw [hrc]; rfl, hmeth, ⟨s, b, ht, hcc⟩, rfl, rfl⟩
      · exact ⟨by rw [hrc]; rfl, hmeth, ⟨s, b, ht, hcc⟩, rfl, rfl⟩

/-- The result of the catch block does not depend on the outcomes of the
fire-and-forget `cache.set` calls. -/
theorem staleFallback_fst_setFails (req : Request) (k : String) (env : CallEnv)
    (e : JsError) (eff : Effects) (b1 b2 : Bool) :
    (staleFallback req k {env with primarySetFails := b1, staleSetFails := b2} e eff).fst =
      (staleFallback req k env e eff).fst := by
  unfold staleFallback
  cases req.requestCache <;> cases hsg : env.staleGet <;> simp [hsg]

/-- The result of the live path does not depend on the outcomes of the
fire-and-forget `cache.set` calls (the caller never awaits them). -/
theorem perform_fst_setFails (req : Request) (k : String) (env : CallEnv) (b1 b2 : Bool) :
    (performRequestResult req k {env with primarySetFails := b1, staleSetFails := b2}).fst =
      (performRequestResult req k env).fst := by
  unfold performRequestResult
  have htr : ({env with primarySetFails := b1, staleSetFails := b2} : CallEnv).transport =
      env.transport := rfl
  rw [htr]
  cases ht : env.transport with
  | failure f =>
      exact staleFallback_fst_setFails req k env (JsError.transportError f)
        {emptyEffects with transportCalls := 1} b1 b2
  | ok s b =>
      by_cases hok : isResponseOk s = true
      · cases hrc : req.requestCache with
        | none => simp [hok, hrc]
        | some c =>
            by_cases hcc : isResponseCacheable req ⟨s, b, false, false, none⟩ = true <;>
              simp [hok, hrc, hcc]
      · simp only [Bool.not_eq_true] at hok
        simp only [hok, Bool.false_eq_true, if_false]
        exact staleFallback_fst_setFails req k env (JsError.requestError s)
          {emptyEffects with transportCalls := 1} b1 b2

/-- The result of the shared-cache phase does not depend on the outcomes
of the fire-and-forget `cache.set` calls. -/
theorem requestAfterMemo_fst_setFails (req : Request) (k : String) (env : CallEnv)
    (b1 b2 : Bool) :
    (requestAfterMemo req k {env with primarySetFails := b1, staleSetFails := b2}).fst =
      (requestAfterMemo req k env).fst := by
  unfold requestAfterMemo
  cases hc : isRequestCacheable req with
  | false => exact perform_fst_setFails req k env b1 b2
  | true =>
      cases hrc : req.requestCache with
      | none => exact perform_fst_setFails req k env b1 b2
      | some c =>
          cases hp : env.primaryGet with
          | hit r => simp [hp]
          | miss => simp [hp]; exact perform_fst_setFails req k env b1 b2
          | backendFailure => simp [hp]; exact perform_fst_setFails req k env b1 b2

/-- The result of a call does not depend on the outcomes of the
fire-and-forget `cache.set` calls. -/
theorem request_fst_setFails (req : Request) (env : CallEnv) (b1 b2 : Bool) :
    (request req {env with primarySetFails := b1, staleSetFails := b2}).fst =
      (request req env).fst := by
  unfold request
  cases hm : isRequestMemoizable req with
  | false =>
      simp only [Bool.false_eq_true, if_false]
      exact requestAfterMemo_fst_setFails req (onCacheKeyCalculation req) env b1 b2
  | true =>
      cases hme : env.memoEntry with
      | some r => simp [hme]
      | none =>
          simp only [if_true, hme]
          exact requestAfterMemo_fst_setFails req (onCacheKeyCalculation req) env b1 b2

/-- Possible results of the catch block: a stale envelope with
`isFromCache` forced true, or an error. -/
theorem staleFallback_fst_cases (req : Request) (k : String) (env : CallEnv)
    (e : JsError) (eff : Effects) :
    (∃ r, env.staleGet = CacheGetOutcome.hit r ∧
       (staleFallback req k env e eff).fst = Except.ok {r with isFromCache := true}) ∨
    (∃ e2, (staleFallback req k env e eff).fst = Except.error e2) := by
  unfold staleFallback
  cases hrc : req.requestCache with
  | none => right; exact ⟨toApolloError e, rfl⟩
  | some c =>
      cases hsg : env.staleGet with
      | hit r => left; exact ⟨r, rfl, by simp⟩
      | miss => right; exact ⟨toApolloError e, by simp⟩
      | backendFailure => right; exact ⟨JsError.cacheBackendError, by simp⟩

/-- Possible results of the live path: a fresh live envelope with both
flags false (with `maxTtl` possibly recorded), a stale envelope with
`isFromCache` forced true, or an error. -/
theorem perform_fst_cases (req : Request) (k : String) (env : CallEnv) :
    (∃ s b, env.transport = TransportOutcome.ok s b ∧
      ((performRequestResult req k env).fst = Except.ok ⟨s, b, false, false, none⟩ ∨
       ∃ c, req.requestCache = some c ∧
         (performRequestResult req k env).fst =
           Except.ok ⟨s, b, false, false, some c.maxTtl⟩)) ∨
    (∃ r, env.staleGet = CacheGetOutcome.hit r ∧
       (performRequestResult req k env).fst = Except.ok {r with isFromCache := true}) ∨
    (∃ e, (performRequestResult req k env).fst = Except.error e) := by
  cases ht : env.transport with
  | failure f =>
      rw [perform_fail req k env (JsError.transportError f) (by unfold liveFailure; rw [ht])]
      rcases staleFallback_fst_cases req k env (JsError.transportError f)
        {emptyEffects with transportCalls := 1} with ⟨r, hsg, h⟩ | ⟨e2, h⟩
      · exact Or.inr (Or.inl ⟨r, hsg, h⟩)
      · exact Or.inr (Or.inr ⟨e2, h⟩)
  | ok s b =>
      by_cases hok : isResponseOk s = true
      · cases hrc : req.requestCache with
        | none =>
            left
            exact ⟨s, b, rfl, Or.inl (by unfold performRequestResult; rw [ht, hrc]; simp [hok])⟩
        | some c =>
            by_cases hcc : isResponseCacheable req ⟨s, b, false, false, none⟩ = true
            · left
              refine ⟨s, b, rfl, Or.inr ⟨c, rfl, ?_⟩⟩
              unfold performRequestResult
              rw [ht, hrc]
              simp [hok, hcc]
            · left
              refine ⟨s, b, rfl, Or.inl ?_⟩
              unfold performRequestResult
              rw [ht, hrc]
              simp [hok, hcc]
      · have hfail : liveFailure env = some (JsError.requestError s) := by
          unfold liveFailure; rw [ht]; simp [hok]
        rw [perform_fail req k env _ hfail]
        rcases staleFallback_fst_cases req k env (JsError.requestError s)
          {emptyEffects with transportCalls := 1} with ⟨r, hsg, h⟩ | ⟨e2, h⟩
        · exact Or.inr (Or.inl ⟨r, hsg, h⟩)
        · exact Or.inr (Or.inr ⟨e2, h⟩)

/-- Possible results of a full call: a memoized envelope (`memoized`
true, `isFromCache` false), a primary shared-cache envelope (`memoized`
false, `isFromCache` true), a fresh live envelope (both flags false), a
stale envelope (`isFromCache` forced true, `memoized` as stored), or an
error. -/
theorem request_fst_cases (req : Request) (env : CallEnv) :
    (∃ stored, env.memoEntry = some stored ∧
      (request req env).fst = Except.ok {stored with memoized := true, isFromCache := false}) ∨
    (∃ stored, env.primaryGet = CacheGetOutcome.hit stored ∧
      (request req env).fst = Except.ok {stored with memoized := false, isFromCache := true}) ∨
    (∃ s b, env.transport = TransportOutcome.ok s b ∧
      ((request req env).fst = Except.ok ⟨s, b, false, false, none⟩ ∨
       ∃ c : RequestCacheOptions,
         (request req env).fst = Except.ok ⟨s, b, false, false, some c.maxTtl⟩)) ∨
    (∃ r, env.staleGet = CacheGetOutcome.hit r ∧
      (request req env).fst = Except.ok {r with isFromCache := true}) ∨
    (∃ e, (request req env).fst = Except.error e) := by
  have hafter : ∀ k,
      (∃ stored, env.primaryGet = CacheGetOutcome.hit stored ∧
        (requestAfterMemo req k env).fst =
          Except.ok {stored with memoized := false, isFromCache := true}) ∨
      (∃ s b, env.transport = TransportOutcome.ok s b ∧
        ((requestAfterMemo req k env).fst = Except.ok ⟨s, b, false, false, none⟩ ∨
         ∃ c : RequestCacheOptions,
           (requestAfterMemo req k env).fst =
             Except.ok ⟨s, b, false, false, some c.maxTtl⟩)) ∨
      (∃ r, env.staleGet = CacheGetOutcome.hit r ∧
        (requestAfterMemo req k env).fst = Except.ok {r with isFromCache := true}) ∨
      (∃ e, (requestAfterMemo req k env).fst = Except.error e) := by
    intro k
    have hdeleg : (requestAfterMemo req k env).fst = (performRequestResult req k env).fst ∨
        (∃ stored, env.primaryGet = CacheGetOutcome.hit stored ∧
          (requestAfterMemo req k env).fst =
            Except.ok {stored with memoized := false, isFromCache := true}) := by
      unfold requestAfterMemo
      cases hc : isRequestCacheable req with
      | false => left; rfl
      | true =>
          cases hrc : req.requestCache with
          | none => left; rfl
          | some c =>
              cases hp : env.primaryGet with
              | hit r => right; exact ⟨r, rfl, by simp⟩
              | miss => left; simp
              | backendFailure => left; simp
    rcases hdeleg with hd | ⟨stored, hp, hd⟩
    · rw [hd]
      rcases perform_fst_cases req k env with ⟨s, b, ht, h⟩ | ⟨r, hsg, h⟩ | ⟨e, h⟩
      · refine Or.inr (Or.inl ⟨s, b, ht, ?_⟩)
        rcases h with h | ⟨c, -, h⟩
        · exact Or.inl h
        · exact Or.inr ⟨c, h⟩
      · exact Or.inr (Or.inr (Or.inl ⟨r, hsg, h⟩))
      · exact Or.inr (Or.inr (Or.inr ⟨e, h⟩))
    · exact Or.inl ⟨stored, hp, hd⟩
  unfold request
  cases hm : isRequestMemoizable req with
  | false =>
      simp only [Bool.false_eq_true, if_false]
      rcases hafter (onCacheKeyCalculation req) with h | h | h | h
      · exact Or.inr (Or.inl h)
      · exact Or.inr (Or.inr (Or.inl h))
      · exact Or.inr (Or.inr (Or.inr (Or.inl h)))
      · exact Or.inr (Or.inr (Or.inr (Or.inr h)))
  | true =>
      cases hme : env.memoEntry with
      | some stored => exact Or.inl ⟨stored, rfl, by simp⟩
      | none =>
          simp only [if_true]
          rcases hafter (onCacheKeyCalculation req) with h | h | h | h
          · exact Or.inr (Or.inl h)
          · exact Or.inr (Or.inr (Or.inl h))
          · exact Or.inr (Or.inr (Or.inr (Or.inl h)))
          · exact Or.inr (Or.inr (Or.inr (Or.inr h)))

/-- C2: for a GET call with `requestCache` set whose cache key has no
entry in the memoization map, a shared-cache hit is returned as an
envelope with `isFromCache = true` and `memoized = false`, and the
transport is never invoked for that call. -/
theorem C2_shared_cache_hit_skips_transport (req : Request) (env : CallEnv)
    (hmethod : req.method = HttpMethod.GET)
    (hrc : req.requestCache.isSome = true)
    (hmemo : env.memoEntry = none)
    (stored : Response) (hhit : env.primaryGet = CacheGetOutcome.hit stored) :
    (request req env).fst =
      Except.ok {stored with memoized := false, isFromCache := true} ∧
    (request req env).snd.transportCalls = 0 := by
  rw [request_memoMiss req env (fun _ => hmemo)]
  obtain ⟨c, hc⟩ := Option.isSome_iff_exists.mp hrc
  unfold requestAfterMemo
  rw [hc, hhit]
  simp [isRequestCacheable, hmethod, emptyEffects]

/-- Witness for C2 at a concrete GET with a primary shared-cache hit. -/
theorem C2_witness :
    (request movieReq hitEnv).fst =
      Except.ok {storedMovie with memoized := false, isFromCache := true} ∧
    (request movieReq hitEnv).snd.transportCalls = 0 :=
  C2_shared_cache_hit_skips_transport movieReq hitEnv rfl rfl rfl storedMovie rfl

/-- C8, counterexample: when both the memoization map and the shared
cache hold an entry for the key of a memoizable GET with `requestCache`
set, the call returns the memoized entry (with `isFromCache = false`) and
never consults the shared cache — not, as claimed, the shared-cache entry
with `isFromCache = true`. -/
theorem C8_counterexample :
    (request movieReq bothHitEnv).fst =
      Except.ok {memoStored with memoized := true, isFromCache := false} ∧
    (request movieReq bothHitEnv).fst ≠
      Except.ok {storedMovie with memoized := false, isFromCache := true} ∧
    (request movieReq bothHitEnv).snd.cacheGets = [] := by
  refine ⟨rfl, by decide, rfl⟩

/-- C8, amended: the memoization map is consulted before the shared
cache; a memoizable call whose key is in the map returns the memoized
entry with `memoized = true`, `isFromCache = false` and performs no
shared-cache access and no transport call at all. -/
theorem C8_memo_checked_before_shared_cache (req : Request) (env : CallEnv)
    (hm : isRequestMemoizable req = true)
    (stored : Response) (hmemo : env.memoEntry = some stored) :
    (request req env).fst =
      Except.ok {stored with memoized := true, isFromCache := false} ∧
    (request req env).snd = emptyEffects := by
  unfold request
  simp [hm, hmemo]

/-- Witness for the amended C8 at a concrete call where both caches hold
an entry. -/
theorem C8_amended_witness :
    (request movieReq bothHitEnv).fst =
      Except.ok {memoStored with memoized := true, isFromCache := false} ∧
    (request movieReq bothHitEnv).snd = emptyEffects :=
  C8_memo_checked_before_shared_cache movieReq bothHitEnv rfl memoStored rfl

/-- C3: a call that reaches the live path and fails there (transport
error or response classified unsuccessful), with `requestCache` set,
resolves with the stale entry and `isFromCache = true` when the stale key
holds one, swallowing the original error; when the stale key holds
nothing the call rejects with the `toApolloError`-wrapped original
error. -/
theorem C3_stale_if_error (req : Request) (env : CallEnv) (e : JsError)
    (hmemo : isRequestMemoizable req = true → env.memoEntry = none)
    (hprim : isRequestCacheable req = true → req.requestCache.isSome = true →
             ∀ r, env.primaryGet ≠ CacheGetOutcome.hit r)
    (hfail : liveFailure env = some e)
    (hrc : req.requestCache.isSome = true) :
    (∀ r, env.staleGet = CacheGetOutcome.hit r →
       (request req env).fst = Except.ok {r with isFromCache := true}) ∧
    (env.staleGet = CacheGetOutcome.miss →
       (request req env).fst = Except.error (toApolloError e)) := by
  obtain ⟨hf, -, -, -, -⟩ := request_live_components req env hmemo hprim
  rw [hf, perform_fail req (onCacheKeyCalculation req) env e hfail]
  obtain ⟨-, hsome⟩ :=
    staleFallback_result req (onCacheKeyCalculation req) env e
      {emptyEffects with transportCalls := 1}
  obtain ⟨hmiss, hhit, -⟩ := hsome hrc
  exact ⟨hhit, hmiss⟩

/-- Witness for C3 at a concrete GET whose transport fails while the
stale key holds an entry. -/
theorem C3_witness :
    (request movieReq staleHitEnv).fst =
      Except.ok {storedMovie with isFromCache := true} :=
  (C3_stale_if_error movieReq staleHitEnv
    (JsError.transportError TransportFailure.network)
    (fun _ => rfl)
    (fun _ _ r => by simp [staleHitEnv])
    rfl rfl).1 storedMovie rfl

/-- C7, counterexample: an aborted GET with `requestCache` set does
perform the stale-fallback lookup (the stale key is passed to the shared
cache) and, when a stale entry is present, resolves from the stale cache
instead of rejecting — contradicting the claim that the stale-fallback
lookup is never performed for an aborted call. -/
theorem C7_counterexample :
    staleKeyFor (onCacheKeyCalculation movieReq) ∈
      (request movieReq abortStaleEnv).snd.cacheGets ∧
    (request movieReq abortStaleEnv).fst =
      Except.ok {storedMovie with isFromCache := true} := by
  exact ⟨by decide, rfl⟩

/-- C7, amended: an aborted call populates no cache entry (no
memoization write, no shared-cache write) and its abort error is distinct
from an HTTP status failure; with `requestCache` unset it rejects with
the abort error and never touches the shared cache, but with
`requestCache` set the stale-fallback lookup is performed: the call
rejects with the abort error only when the stale key holds nothing, and
resolves from the stale entry when one is present. -/
theorem C7_abort_behaviour (req : Request) (env : CallEnv)
    (hmemo : isRequestMemoizable req = true → env.memoEntry = none)
    (hprim : isRequestCacheable req = true → req.requestCache.isSome = true →
             ∀ r, env.primaryGet ≠ CacheGetOutcome.hit r)
    (habort : env.transport = TransportOutcome.failure TransportFailure.abort) :
    (request req env).snd.memoWrites = [] ∧
    (request req env).snd.cacheSets = [] ∧
    (req.requestCache = none →
       (request req env).fst =
         Except.error (toApolloError (JsError.transportError TransportFailure.abort)) ∧
       (request req env).snd.cacheGets = []) ∧
    (req.requestCache.isSome = true →
       staleKeyFor (onCacheKeyCalculation req) ∈ (request req env).snd.cacheGets ∧
       (env.staleGet = CacheGetOutcome.miss →
          (request req env).fst =
            Except.error (toApolloError (JsError.transportError TransportFailure.abort))) ∧
       (∀ r, env.staleGet = CacheGetOutcome.hit r →
          (request req env).fst = Except.ok {r with isFromCache := true})) ∧
    (∀ s, toApolloError (JsError.transportError TransportFailure.abort) ≠
          toApolloError (JsError.requestError s)) := by
  have hfail : liveFailure env = some (JsError.transportError TransportFailure.abort) := by
    unfold liveFailure; rw [habort]
  obtain ⟨hf, hsets, hmw, -, hgets⟩ := request_live_components req env hmemo hprim
  have hperf := perform_fail req (onCacheKeyCalculation req) env _ hfail
  rw [hperf] at hf hsets hmw hgets
  obtain ⟨hfsets, hfmw, -, hfgets⟩ :=
    staleFallback_effects req (onCacheKeyCalculation req) env
      (JsError.transportError TransportFailure.abort)
  obtain ⟨hnone, hsome⟩ :=
    staleFallback_result req (onCacheKeyCalculation req) env
      (JsError.transportError TransportFailure.abort)
      {emptyEffects with transportCalls := 1}
  refine ⟨hmw.trans hfmw, hsets.trans hfsets, fun hrc => ?_, fun hrc => ?_,
          fun s => by simp [toApolloError]⟩
  · rcases hfgets with ⟨-, hg⟩ | ⟨hs, -⟩
    · rcases hgets with hgeq | ⟨hsome2, -⟩
      · exact ⟨hf.trans (hnone hrc), hgeq.trans hg⟩
      · exact absurd hsome2 (by simp [hrc])
    · exact absurd hs (by simp [hrc])
  · obtain ⟨hmiss, hhit, -⟩ := hsome hrc
    rcases hfgets with ⟨hn, -⟩ | ⟨-, hg⟩
    · exact absurd hrc (by simp [hn])
    · refine ⟨?_, fun hsg => hf.trans (hmiss hsg), fun r hsg => hf.trans (hhit r hsg)⟩
      rcases hgets with hgeq | ⟨-, hgeq⟩
      · rw [hgeq, hg]; exact List.mem_singleton.mpr rfl
      · rw [hgeq, hg]; exact List.mem_cons_of_mem _ (List.mem_singleton.mpr rfl)

/-- Witness for the amended C7 at a concrete aborted GET with a stale
entry present. -/
theorem C7_amended_witness :
    (request movieReq abortStaleEnv).snd.memoWrites = [] ∧
    (request movieReq abortStaleEnv).snd.cacheSets = [] ∧
    (request movieReq abortStaleEnv).fst =
      Except.ok {storedMovie with isFromCache := true} :=
  have h := C7_abort_behaviour movieReq abortStaleEnv (fun _ => rfl)
    (fun _ _ r => by simp [abortStaleEnv]) rfl
  ⟨h.1, h.2.1, (h.2.2.2.1 rfl).2.2 storedMovie rfl⟩

/-- C1: evaluation at the failing input.  Two GET calls for the same
cache key are issued before the first resolves (both issue phases run
before either transport response arrives, which is what happens in the
event loop because the memoization check precedes every `await` of a
call); because `memoizedResults` only receives the envelope after the
response resolves, both calls miss the map and the transport is invoked
twice (not once as the claim and the repository's own concurrency test
require), and both resolved envelopes carry `memoized = false`. -/
theorem C1_concurrent_gets_not_deduplicated :
    (runConcurrentTwoGets "k" (200, "a") (200, "a")).finalState.transportCalls = 2 ∧
    ¬ (runConcurrentTwoGets "k" (200, "a") (200, "a")).finalState.transportCalls = 1 ∧
    (runConcurrentTwoGets "k" (200, "a") (200, "a")).result1 =
      Except.ok (0, ⟨200, "a", false, false, none⟩) ∧
    (runConcurrentTwoGets "k" (200, "a") (200, "a")).result2 =
      Except.ok (1, ⟨200, "a", false, false, none⟩) :=
  ⟨rfl, by decide, rfl, rfl⟩

/-- C9, counterexample: after a GET resolves and a second GET for the
same key hits the memoization map, the second call returns the very same
heap object (reference 0) rather than a distinct copy, and the stored
object — the envelope the first caller already holds — has been mutated
from `memoized = false` to `memoized = true`. -/
theorem C9_counterexample :
    (runSequentialTwoGets "k" (200, "a") (200, "b")).result1 =
      Except.ok (0, ⟨200, "a", false, false, none⟩) ∧
    (runSequentialTwoGets "k" (200, "a") (200, "b")).result2 =
      Except.ok (0, ⟨200, "a", true, false, none⟩) ∧
    heapGet (runSequentialTwoGets "k" (200, "a") (200, "b")).finalState.heap 0 =
      ⟨200, "a", true, false, none⟩ ∧
    heapGet (runSequentialTwoGets "k" (200, "a") (200, "b")).finalState.heap 0 ≠
      ⟨200, "a", false, false, none⟩ :=
  ⟨rfl, rfl, rfl, by decide⟩

/-- C9, amended: a memoized hit does not create a fresh envelope; it
mutates the stored envelope object in place (`memoized := true`,
`isFromCache := false`) and returns that same object, so the entry in the
map and the envelope previously returned to the earlier caller observe
the mutation. -/
theorem C9_memo_hit_mutates_shared_object (cacheKey body1 : String) (status : Nat)
    (t2 : Nat × String) (h : isResponseOk status = true) :
    (runSequentialTwoGets cacheKey (status, body1) t2).result1 =
      Except.ok (0, ⟨status, body1, false, false, none⟩) ∧
    (runSequentialTwoGets cacheKey (status, body1) t2).result2 =
      Except.ok (0, ⟨status, body1, true, false, none⟩) ∧
    heapGet (runSequentialTwoGets cacheKey (status, body1) t2).finalState.heap 0 =
      ⟨status, body1, true, false, none⟩ ∧
    (runSequentialTwoGets cacheKey (status, body1) t2).finalState.transportCalls = 1 := by
  unfold runSequentialTwoGets finishCall issuePhase resolvePhase initialInstState
  simp [h, memoLookup, heapGet, heapSet]

/-- Witness for the amended C9 at a concrete sequential pair of GETs. -/
theorem C9_amended_witness :
    (runSequentialTwoGets "k" (200, "a") (200, "b")).result2 =
      Except.ok (0, ⟨200, "a", true, false, none⟩) ∧
    heapGet (runSequentialTwoGets "k" (200, "a") (200, "b")).finalState.heap 0 =
      ⟨200, "a", true, false, none⟩ :=
  have h := C9_memo_hit_mutates_shared_object "k" "a" 200 (200, "b") (by decide)
  ⟨h.2.1, h.2.2.1⟩

/-- C4: a response is written to the shared cache only when
`requestCache` is set, the method is GET and the status code is in
{200, 203}; when those conditions hold on a live success the primary and
stale entries are written together; the caller's result never depends on
the outcomes of the fire-and-forget writes; and a response whose status
is not in the cacheable set (for example 500) causes zero `cache.set`
calls. -/
theorem C4_cache_write_conditions (req : Request) (env : CallEnv) :
    (∀ e, e ∈ (request req env).snd.cacheSets →
       req.requestCache.isSome = true ∧ req.method = HttpMethod.GET ∧
       ∃ s b, env.transport = TransportOutcome.ok s b ∧
         statusCodeCacheableByDefault s = true) ∧
    (∀ b1 b2, (request req {env with primarySetFails := b1, staleSetFails := b2}).fst =
       (request req env).fst) ∧
    (∀ c s b, req.requestCache = some c → req.method = HttpMethod.GET →
       (isRequestMemoizable req = true → env.memoEntry = none) →
       (∀ r, env.primaryGet ≠ CacheGetOutcome.hit r) →
       env.transport = TransportOutcome.ok s b →
       statusCodeCacheableByDefault s = true →
       (request req env).snd.cacheSets =
         [⟨onCacheKeyCalculation req, ⟨s, b, false, false, some c.maxTtl⟩, c.maxTtl⟩,
          ⟨staleKeyFor (onCacheKeyCalculation req), ⟨s, b, false, false, some c.maxTtl⟩,
           c.maxTtl + c.maxTtlIfError⟩]) ∧
    (∀ s b, env.transport = TransportOutcome.ok s b →
       ¬ statusCodeCacheableByDefault s = true →
       (request req env).snd.cacheSets = []) := by
  refine ⟨?_, request_fst_setFails req env, ?_, ?_⟩
  · intro e he
    obtain ⟨h1, h2, h3, -, -⟩ := request_cacheSets_conditions req env e he
    exact ⟨h1, h2, h3⟩
  · intro c s b hrc hmeth hmemo hprim ht hcc
    obtain ⟨-, hsets, -, -, -⟩ :=
      request_live_components req env hmemo (fun _ _ => hprim)
    rw [hsets, perform_ok_cacheable req (onCacheKeyCalculation req) env s b c ht hrc hcc hmeth]
  · intro s b ht hcc
    by_contra hne
    obtain ⟨e, he⟩ := List.exists_mem_of_ne_nil _ hne
    obtain ⟨-, -, ⟨s2, b2, ht2, hcc2⟩, -, -⟩ := request_cacheSets_conditions req env e he
    rw [ht] at ht2
    injection ht2 with hs2 hb2
    exact hcc (hs2 ▸ hcc2)

/-- Witness for C4: a GET answered with status 500 writes nothing to the
shared cache. -/
theorem C4_witness :
    (request movieReq live500Env).snd.cacheSets = [] :=
  (C4_cache_write_conditions movieReq live500Env).2.2.2 500 "server-error" rfl (by decide)

/-- C5, counterexample: a failing POST with `requestCache` supplied does
read the shared cache — the stale key is passed to `cache.get` by the
stale-fallback lookup, and the POST even resolves from the stale entry —
contradicting the claim that no shared-cache `get` occurs for mutating
verbs. -/
theorem C5_counterexample :
    (request postReq staleHitEnv).snd.cacheGets =
      [staleKeyFor (onCacheKeyCalculation postReq)] ∧
    (request postReq staleHitEnv).snd.cacheGets ≠ [] ∧
    (request postReq staleHitEnv).fst =
      Except.ok {storedMovie with isFromCache := true} := by
  exact ⟨rfl, by decide, rfl⟩

/-- C5, amended: for POST/PUT/DELETE/PATCH the shared cache is never
written and the primary key is never read even when `requestCache` is
supplied, but when the call fails on the live path with `requestCache`
set, the stale key (distinct from the primary key) is read by the
stale-fallback lookup. -/
theorem C5_mutating_verbs_shared_cache (req : Request) (env : CallEnv)
    (h : req.method ≠ HttpMethod.GET) :
    (request req env).snd.cacheSets = [] ∧
    ((request req env).snd.cacheGets = [] ∨
     ((request req env).snd.cacheGets = [staleKeyFor (onCacheKeyCalculation req)] ∧
      req.requestCache.isSome = true ∧ liveFailure env ≠ none)) ∧
    staleKeyFor (onCacheKeyCalculation req) ≠ onCacheKeyCalculation req := by
  have hb : (req.method == HttpMethod.GET) = false := by
    simp [h]
  have hm : isRequestMemoizable req = false := by
    simp [isRequestMemoizable, hb]
  have hc : isRequestCacheable req = false := by
    simp [isRequestCacheable, hb]
  have hdeleg : request req env =
      performRequestResult req (onCacheKeyCalculation req) env := by
    rw [request_memoMiss req env (fun hmm => absurd hmm (by simp [hm]))]
    unfold requestAfterMemo
    simp [hc]
  rw [hdeleg]
  refine ⟨?_, ?_, staleKeyFor_ne _⟩
  · rcases perform_cacheSets req (onCacheKeyCalculation req) env with
      hs | ⟨s, b, c, -, -, -, hmeth, -⟩
    · exact hs
    · exact absurd hmeth h
  · cases ht : env.transport with
    | failure f =>
        have hfail : liveFailure env = some (JsError.transportError f) := by
          unfold liveFailure; rw [ht]
        rw [perform_fail req (onCacheKeyCalculation req) env _ hfail]
        obtain ⟨-, -, -, hg⟩ :=
          staleFallback_effects req (onCacheKeyCalculation req) env (JsError.transportError f)
        rcases hg with ⟨-, hg⟩ | ⟨hs2, hg⟩
        · left; exact hg
        · right; exact ⟨hg, hs2, by rw [hfail]; simp⟩
    | ok s b =>
        by_cases hok : isResponseOk s = true
        · left
          unfold performRequestResult
          rw [ht]
          cases hrc : req.requestCache with
          | none => simp [hok, emptyEffects]
          | some c =>
              have hcb : isResponseCacheable req ⟨s, b, false, false, none⟩ = false := by
                simp [isResponseCacheable, hc]
              simp [hok, hcb, emptyEffects]
        · have hfail : liveFailure env = some (JsError.requestError s) := by
            unfold liveFailure; rw [ht]; simp [hok]
          rw [perform_fail req (onCacheKeyCalculation req) env _ hfail]
          obtain ⟨-, -, -, hg⟩ :=
            staleFallback_effects req (onCacheKeyCalculation req) env (JsError.requestError s)
          rcases hg with ⟨-, hg⟩ | ⟨hs2, hg⟩
          · left; exact hg
          · right; exact ⟨hg, hs2, by rw [hfail]; simp⟩

/-- Witness for the amended C5 at a concrete successful POST with
`requestCache` supplied. -/
theorem C5_amended_witness :
    (request postReq liveOkEnv).snd.cacheSets = [] ∧
    staleKeyFor (onCacheKeyCalculation postReq) ≠ onCacheKeyCalculation postReq :=
  have h := C5_mutating_verbs_shared_cache postReq liveOkEnv (by decide)
  ⟨h.1, h.2.2⟩

/-- C6, counterexample: when the transport fails and the stale-fallback
`cache.get` itself rejects, the call rejects with the cache-backend error
— contradicting the claim that a cache-backend failure is never surfaced
to the caller. -/
theorem C6_counterexample :
    (request movieReq staleFailEnv).fst = Except.error JsError.cacheBackendError := rfl

/-- C6, amended: fire-and-forget `cache.set` failures never affect the
call's result; a failed primary `cache.get` is caught, logged and treated
as a miss (the call proceeds to the transport); but a failed `cache.get`
during the stale-fallback lookup is not caught and becomes the call's
rejection. -/
theorem C6_cache_backend_policy (req : Request) (env : CallEnv) :
    (∀ b1 b2, (request req {env with primarySetFails := b1, staleSetFails := b2}).fst =
        (request req env).fst) ∧
    ((isRequestMemoizable req = true → env.memoEntry = none) →
      isRequestCacheable req = true → req.requestCache.isSome = true →
      env.primaryGet = CacheGetOutcome.backendFailure →
      (request req env).snd.transportCalls = 1 ∧
      1 ≤ (request req env).snd.loggedErrors) ∧
    ((isRequestMemoizable req = true → env.memoEntry = none) →
      (isRequestCacheable req = true → req.requestCache.isSome = true →
        ∀ r, env.primaryGet ≠ CacheGetOutcome.hit r) →
      req.requestCache.isSome = true →
      liveFailure env ≠ none →
      env.staleGet = CacheGetOutcome.backendFailure →
      (request req env).fst = Except.error JsError.cacheBackendError) := by
  refine ⟨request_fst_setFails req env, ?_, ?_⟩
  · intro hmemo hcb hrc hp
    rw [request_memoMiss req env hmemo]
    obtain ⟨c, hcc⟩ := Option.isSome_iff_exists.mp hrc
    unfold requestAfterMemo
    rw [hcc, hp]
    simp only [hcb, if_true]
    constructor
    · simpa using perform_transportCalls req (onCacheKeyCalculation req) env
    · simp
  · intro hmemo hprim hrc hlf hsg
    obtain ⟨e, he⟩ := Option.ne_none_iff_exists'.mp hlf
    obtain ⟨hf, -, -, -, -⟩ := request_live_components req env hmemo hprim
    rw [hf, perform_fail req (onCacheKeyCalculation req) env e he]
    exact ((staleFallback_result req (onCacheKeyCalculation req) env e
      {emptyEffects with transportCalls := 1}).2 hrc).2.2 hsg

/-- Witness for the amended C6: a failed primary `cache.get` is treated
as a miss — the call proceeds to the transport (one invocation) and logs
the failure. -/
theorem C6_amended_witness :
    (request movieReq primaryFailEnv).snd.transportCalls = 1 ∧
    1 ≤ (request movieReq primaryFailEnv).snd.loggedErrors :=
  (C6_cache_backend_policy movieReq primaryFailEnv).2.1 (fun _ => rfl) rfl rfl rfl

/-- C10: in every envelope a call returns, `memoized` and `isFromCache`
are never both true, provided every stale entry the shared cache can
return was written with `memoized = false` — which the first conjunct
guarantees for all entries this engine itself writes. -/
theorem C10_flags_mutually_exclusive (req : Request) (env : CallEnv) :
    (∀ e, e ∈ (request req env).snd.cacheSets →
       e.value.memoized = false ∧ e.value.isFromCache = false) ∧
    ((∀ r, env.staleGet = CacheGetOutcome.hit r → r.memoized = false) →
      ∀ resp, (request req env).fst = Except.ok resp →
        resp.memoized = false ∨ resp.isFromCache = false) := by
  constructor
  · intro e he
    obtain ⟨-, -, -, h4, h5⟩ := request_cacheSets_conditions req env e he
    exact ⟨h4, h5⟩
  · intro hwf resp hok
    rcases request_fst_cases req env with
      ⟨st, -, h⟩ | ⟨st, -, h⟩ | ⟨s, b, -, h | ⟨c, h⟩⟩ | ⟨r, hsg, h⟩ | ⟨e, h⟩
    · rw [h] at hok
      injection hok with hok
      rw [← hok]
      exact Or.inr rfl
    · rw [h] at hok
      injection hok with hok
      rw [← hok]
      exact Or.inl rfl
    · rw [h] at hok
      injection hok with hok
      rw [← hok]
      exact Or.inl rfl
    · rw [h] at hok
      injection hok with hok
      rw [← hok]
      exact Or.inl rfl
    · rw [h] at hok
      injection hok with hok
      rw [← hok]
      exact Or.inl (hwf r hsg)
    · rw [h] at hok
      exact absurd hok (by simp)

/-- Witness for C10 at a concrete live GET success. -/
theorem C10_witness :
    (⟨200, "live-body", false, false, some 10⟩ : Response).memoized = false ∨
    (⟨200, "live-body", false, false, some 10⟩ : Response).isFromCache = false :=
  (C10_flags_mutually_exclusive movieReq liveOkEnv).2
    (by simp [liveOkEnv]) ⟨200, "live-body", false, false, some 10⟩ rfl

end HttpDataSource
